import Mathlib

/-!
Shallow embedding of the `rust-db` repository (a minimal relational engine:
tokenizer, parser, executor, schema/row validation with column constraints)
together with proofs settling the frozen claims about its specification.

Sources embedded: `src/row.rs`, `src/column.rs`, `src/constraint_state.rs`,
`src/schema.rs`, `src/table.rs`, `src/executor.rs`, `src/tokenizer.rs`,
`src/parser.rs`.

Modelling conventions:
* `HashMap<String, _>` is modelled as an association list `List (String × _)`
  with insert-replaces-value semantics; `HashSet` and `BTreeSet` are modelled
  as duplicate-free lists (ordering of `BTreeSet` is irrelevant to every
  claim, only membership is observed).
* Fallible Rust functions returning `Result` become `Except`; functions that
  take `&mut ConstraintState` additionally return the (possibly mutated)
  state, also on the error path, exactly as the caller's state is left
  mutated in Rust.
* `panic!`/`unimplemented!`/out-of-bounds indexing are modelled by an
  explicit `panicked` outcome constructor, kept distinct from `Result::Err`
  failure values.
-/

set_option autoImplicit false

/-- Decidable equality for `Except`, so that concrete runs of the embedded
functions can be checked by `decide`. -/
instance {ε α : Type} [DecidableEq ε] [DecidableEq α] : DecidableEq (Except ε α)
  | .ok a, .ok b => decidable_of_iff (a = b) (by simp)
  | .ok _, .error _ => isFalse (by simp)
  | .error _, .ok _ => isFalse (by simp)
  | .error a, .error b => decidable_of_iff (a = b) (by simp)

-- ==========================================================================
-- Value / DataType model (src/column.rs `DataType`, src/row.rs `Value`)
-- ==========================================================================

/-- `DataType` from `src/column.rs`: `String`, `Integer`, `Null`. -/
inductive DataType where
  | String
  | Integer
  | Null
deriving DecidableEq, Repr

/-- `Value` from `src/row.rs`: tagged scalar. `i64` is modelled as `Int`
(only equality and ordering of values are ever observed). -/
inductive Value where
  | String (s : String)
  | Integer (n : Int)
  | Null
deriving DecidableEq, Repr

/-- Modelled from the spec: `Value::get_data_type` is called throughout the
repository (`row.rs`, `column.rs`) but its definition is not under `src/`;
spec §3 describes `DataType` as "the type tag of a Value". -/
def Value.get_data_type : Value → DataType
  | .String _ => .String
  | .Integer _ => .Integer
  | .Null => .Null

-- ==========================================================================
-- Constraints (src/constraint_state.rs)
-- ==========================================================================

/-- `ConstraintKind` from `src/constraint_state.rs`. -/
inductive ConstraintKind where
  | NotNull
  | Unique
  | Default
  | Index
deriving DecidableEq, Repr

/-- `Constraint` from `src/constraint_state.rs`: `Unit(kind)` or
`WithValue(kind, value)`. -/
inductive Constraint where
  | Unit (k : ConstraintKind)
  | WithValue (k : ConstraintKind) (v : Value)
deriving DecidableEq, Repr

/-- `Column` from `src/column.rs`. The `HashMap<ConstraintKind, Constraint>`
is modelled as the list of its values (each kind occurs at most once per
column, per the builder and the spec). -/
structure Column where
  name : String
  data_type : DataType
  constraints : List Constraint
deriving DecidableEq, Repr

/-- The live `Schema` used by `row.rs`/`table.rs`/`executor.rs`: an ordered
sequence of `column::Column`s. (The stale `src/schema.rs` is embedded
separately below as `SchemaRS`.) -/
structure Schema where
  columns : List Column
deriving DecidableEq, Repr

/-- Modelled from the spec: `Schema::get_column_index` is called by
`executor.rs` but its definition is not under `src/`; spec §3 says the
Schema carries "a derived name→position lookup" that "is exactly the
inverse of the sequence order". -/
def Schema.get_column_index (s : Schema) (name : String) : Option Nat :=
  s.columns.findIdx? (fun c => c.name == name)

-- ==========================================================================
-- Association-list / set helpers (HashMap, HashSet, BTreeSet models)
-- ==========================================================================

/-- `HashMap::get` on the association-list model. -/
def alistGet {β : Type} (k : String) (m : List (String × β)) : Option β :=
  (m.find? (fun p => p.1 == k)).map (·.2)

/-- `HashMap::insert` on the association-list model: replace the value at
an existing key, otherwise append the new binding. -/
def alistInsert {β : Type} (k : String) (v : β) : List (String × β) → List (String × β)
  | [] => [(k, v)]
  | (k', v') :: rest =>
      if k' == k then (k, v) :: rest else (k', v') :: alistInsert k v rest

/-- `HashSet<Value>::insert`: returns whether the value was newly inserted,
plus the updated set. -/
def hashSetInsert (v : Value) (s : List Value) : Bool × List Value :=
  if v ∈ s then (false, s) else (true, s ++ [v])

/-- `HashSet<String>::insert` (result bool unused at its call sites). -/
def strSetAdd (x : String) (s : List String) : List String :=
  if x ∈ s then s else s ++ [x]

/-- `BTreeSet<Value>::insert`, modelled as duplicate-free list insertion
(ordering is never observed by the embedded claims). -/
def btreeInsert (v : Value) (s : List Value) : List Value :=
  if v ∈ s then s else s ++ [v]

-- ==========================================================================
-- ConstraintState (src/constraint_state.rs)
-- ==========================================================================

/-- `ConstraintState` from `src/constraint_state.rs`. -/
structure ConstraintState where
  unique_values : List (String × List Value)
  not_null_columns : List String
  default_values : List (String × Value)
  indexes : List (String × List Value)
deriving DecidableEq, Repr

/-- One step of the inner `for constraint in col.constraints.values()`
loop of `ConstraintState::from_schema`. -/
def fromSchemaStep (colName : String) (cs : ConstraintState) : Constraint → ConstraintState
  | .Unit .NotNull =>
      { cs with not_null_columns := strSetAdd colName cs.not_null_columns }
  | .Unit .Unique =>
      { cs with unique_values := alistInsert colName [] cs.unique_values }
  | .Unit .Index =>
      { cs with indexes := alistInsert colName [] cs.indexes }
  | .WithValue .Default v =>
      { cs with default_values := alistInsert colName v cs.default_values }
  | _ => cs   -- the `_other => { // TODO }` arm

/-- `ConstraintState::from_schema` from `src/constraint_state.rs`. -/
def ConstraintState.from_schema (schema : Schema) : ConstraintState :=
  schema.columns.foldl
    (fun cs col => col.constraints.foldl (fromSchemaStep col.name) cs)
    ⟨[], [], [], []⟩

/-- `ConstraintState::new` delegates to `from_schema`. -/
def ConstraintState.new (schema : Schema) : ConstraintState :=
  ConstraintState.from_schema schema

-- ==========================================================================
-- Row validation (src/row.rs)
-- ==========================================================================

/-- `RowErrors` from `src/row.rs`. -/
inductive RowErrors where
  | WrongValueCount (expected got : Nat)
  | TypeMismatch (column : String) (expected : DataType) (got : Value) (got_type : DataType)
  | NotNullViolated (column : String)
  | UniqueViolated (column : String) (value : Value)
deriving DecidableEq, Repr

/-- `Row` from `src/row.rs`. -/
structure Row where
  values : List Value
deriving DecidableEq, Repr

/-- `Row::validate_value_count`. -/
def validate_value_count (values : List Value) (schema : Schema) : Except RowErrors Unit :=
  if values.length ≠ schema.columns.length then
    .error (.WrongValueCount schema.columns.length values.length)
  else
    .ok ()

/-- `Row::validate_type`. (`if let Value::Null = val` is rendered as an
equality test with the constant `Value.Null`, which is the same check.) -/
def validate_type (val : Value) (expected_type : DataType) (col_name : String) :
    Except RowErrors Unit :=
  if val = Value.Null then
    .ok ()
  else if val.get_data_type ≠ expected_type then
    .error (.TypeMismatch col_name expected_type val val.get_data_type)
  else
    .ok ()

/-- `Row::apply_default_if_null`. -/
def apply_default_if_null (val : Value) (col : Column) (cs : ConstraintState) : Value :=
  if val = Value.Null then
    match alistGet col.name cs.default_values with
    | some default_val => default_val
    | none => val
  else val

/-- `Row::check_not_null`. -/
def check_not_null (val : Value) (col : Column) (cs : ConstraintState) :
    Except RowErrors Unit :=
  if col.name ∈ cs.not_null_columns ∧ val = Value.Null then
    .error (.NotNullViolated col.name)
  else
    .ok ()

/-- `Row::check_unique`. Takes and returns the state (`&mut` in Rust);
on the error path the seen-set is untouched (`HashSet::insert` returned
`false`, i.e. the value was already present). -/
def check_unique (val : Value) (col : Column) (cs : ConstraintState) :
    Except RowErrors ConstraintState :=
  if val ≠ Value.Null then
    match alistGet col.name cs.unique_values with
    | some seen =>
        match hashSetInsert val seen with
        | (false, _) => .error (.UniqueViolated col.name val)
        | (true, seen') =>
            .ok { cs with unique_values := alistInsert col.name seen' cs.unique_values }
    | none => .ok cs
  else
    .ok cs

/-- `Row::check_if_indexed` (never fails; the `Result` wrapper in the source
is always `Ok`). -/
def check_if_indexed (val : Value) (col : Column) (cs : ConstraintState) : ConstraintState :=
  match alistGet col.name cs.indexes with
  | some idx => { cs with indexes := alistInsert col.name (btreeInsert val idx) cs.indexes }
  | none => cs

/-- The body of one iteration of the `for (col, val) in
schema.columns.iter().zip(values.iter_mut())` loop of
`Row::validate_and_apply_constraints`, in source order: type check, default
substitution, not-null check, uniqueness check, index maintenance. Returns
the (possibly defaulted) value and the updated state. -/
def processColumn (col : Column) (val : Value) (cs : ConstraintState) :
    Except RowErrors (Value × ConstraintState) :=
  match validate_type val col.data_type col.name with
  | .error e => .error e
  | .ok _ =>
      let val' := apply_default_if_null val col cs
      match check_not_null val' col cs with
      | .error e => .error e
      | .ok _ =>
          match check_unique val' col cs with
          | .error e => .error e
          | .ok cs₁ => .ok (val', check_if_indexed val' col cs₁)

/-- `Row::validate_and_apply_constraints`: the zip loop over columns and
values. The state component is returned also on failure (in Rust the
caller's `&mut ConstraintState` keeps the mutations of the already
processed columns); values beyond the zip are returned unchanged. -/
def validate_and_apply_constraints :
    List Column → List Value → ConstraintState →
    Except RowErrors (List Value) × ConstraintState
  | [], vs, cs => (.ok vs, cs)
  | _ :: _, [], cs => (.ok [], cs)
  | col :: cols, v :: vs, cs =>
      match processColumn col v cs with
      | .error e => (.error e, cs)
      | .ok (v', cs') =>
          match validate_and_apply_constraints cols vs cs' with
          | (.error e, cs'') => (.error e, cs'')
          | (.ok vs', cs'') => (.ok (v' :: vs'), cs'')

/-- `Row::new`: count check first, then the per-column constraint loop. -/
def Row.new (schema : Schema) (cs : ConstraintState) (values : List Value) :
    Except RowErrors Row × ConstraintState :=
  match validate_value_count values schema with
  | .error e => (.error e, cs)
  | .ok _ =>
      match validate_and_apply_constraints schema.columns values cs with
      | (.error e, cs') => (.error e, cs')
      | (.ok vs, cs') => (.ok ⟨vs⟩, cs')

-- ==========================================================================
-- Table (src/table.rs)
-- ==========================================================================

/-- `TableErrors` from `src/table.rs`. -/
inductive TableErrors where
  | RowConstructionError (e : RowErrors)
  | RowNotFound (idx : Nat)
deriving DecidableEq, Repr

/-- `Table` from `src/table.rs`. The `HashMap<u64, Row>` row store is
modelled as an association list with distinct keys (insert replaces;
`len` is the number of keys). -/
structure Table where
  schema : Schema
  rows : List (Nat × Row)
  constraint_state : ConstraintState
deriving DecidableEq, Repr

/-- `HashMap<u64, Row>::insert`: replace the row at an existing id,
otherwise append. -/
def rowsInsert (k : Nat) (r : Row) : List (Nat × Row) → List (Nat × Row)
  | [] => [(k, r)]
  | (k', r') :: rest =>
      if k' = k then (k, r) :: rest else (k', r') :: rowsInsert k r rest

/-- `HashMap<u64, Row>::remove`: the removed row (if any) and the remaining
store. -/
def rowsRemove (k : Nat) : List (Nat × Row) → Option Row × List (Nat × Row)
  | [] => (none, [])
  | (k', r') :: rest =>
      if k' = k then (some r', rest)
      else
        match rowsRemove k rest with
        | (res, rest') => (res, (k', r') :: rest')

/-- `HashMap<u64, Row>::get`. -/
def rowsGet (k : Nat) (rows : List (Nat × Row)) : Option Row :=
  (rows.find? (fun p => p.1 = k)).map (·.2)

/-- `Table::new`. -/
def Table.new (schema : Schema) : Table :=
  { schema := schema, rows := [], constraint_state := ConstraintState.new schema }

/-- `Table::add_row`: validate via `Row::new` (whose state mutations stick
even on failure), then insert under `row_id = self.rows.len()`. -/
def Table.add_row (t : Table) (row_values : List Value) : Except TableErrors Nat × Table :=
  match Row.new t.schema t.constraint_state row_values with
  | (.error e, cs') => (.error (.RowConstructionError e), { t with constraint_state := cs' })
  | (.ok row, cs') =>
      let row_id := t.rows.length
      (.ok row_id,
        { t with constraint_state := cs', rows := rowsInsert row_id row t.rows })

/-- `Table::delete_row`. -/
def Table.delete_row (t : Table) (idx : Nat) : Except TableErrors Unit × Table :=
  match rowsRemove idx t.rows with
  | (none, _) => (.error (.RowNotFound idx), t)
  | (some _, rest) => (.ok (), { t with rows := rest })

/-- `Table::edit_row`. -/
def Table.edit_row (t : Table) (idx : Nat) (row_values : List Value) :
    Except TableErrors Unit × Table :=
  if (rowsGet idx t.rows).isNone then
    (.error (.RowNotFound idx), t)
  else
    match Row.new t.schema t.constraint_state row_values with
    | (.error e, cs') => (.error (.RowConstructionError e), { t with constraint_state := cs' })
    | (.ok row, cs') =>
        (.ok (), { t with constraint_state := cs', rows := rowsInsert idx row t.rows })

/-- `Table::get_row`. -/
def Table.get_row (t : Table) (idx : Nat) : Option Row :=
  rowsGet idx t.rows


-- ==========================================================================
-- Lemmas about the row validator
-- ==========================================================================

/-- `check_unique` never changes the stored default values. -/
theorem check_unique_ok_default_values {v : Value} {c : Column}
    {cs cs' : ConstraintState} (h : check_unique v c cs = .ok cs') :
    cs'.default_values = cs.default_values := by
  unfold check_unique at h
  split at h
  · split at h
    · split at h
      · exact absurd h (by simp)
      · injection h with h; subst h; rfl
    · injection h with h; subst h; rfl
  · injection h with h; subst h; rfl

/-- `check_if_indexed` never changes the stored default values. -/
theorem check_if_indexed_default_values (v : Value) (c : Column) (cs : ConstraintState) :
    (check_if_indexed v c cs).default_values = cs.default_values := by
  unfold check_if_indexed
  split <;> rfl

/-- `apply_default_if_null` only reads the default-value map. -/
theorem apply_default_if_null_congr {cs cs' : ConstraintState}
    (h : cs'.default_values = cs.default_values) (v : Value) (c : Column) :
    apply_default_if_null v c cs' = apply_default_if_null v c cs := by
  unfold apply_default_if_null
  rw [h]

/-- On success, one column step returns the defaulted value and leaves the
default-value map unchanged. -/
theorem processColumn_ok_shape {c : Column} {v : Value} {cs : ConstraintState}
    {p : Value × ConstraintState} (h : processColumn c v cs = .ok p) :
    p.1 = apply_default_if_null v c cs ∧ p.2.default_values = cs.default_values := by
  unfold processColumn at h
  split at h
  · exact absurd h (by simp)
  · simp only at h
    split at h
    · exact absurd h (by simp)
    · split at h
      · exact absurd h (by simp)
      · rename_i cs₁ hu
        injection h with h
        subst h
        exact ⟨rfl, (check_if_indexed_default_values _ _ _).trans
          (check_unique_ok_default_values hu)⟩

/-- A failing column step never produces `WrongValueCount`. -/
theorem processColumn_error_not_count {c : Column} {v : Value} {cs : ConstraintState}
    {e : RowErrors} (h : processColumn c v cs = .error e) :
    ∀ expected got, e ≠ RowErrors.WrongValueCount expected got := by
  intro expected got
  unfold processColumn at h
  split at h
  · rename_i hv
    unfold validate_type at hv
    split at hv
    · exact absurd hv (by simp)
    · split at hv
      · injection hv with hv
        injection h with h
        subst h; subst hv
        simp
      · exact absurd hv (by simp)
  · simp only at h
    split at h
    · rename_i hn
      unfold check_not_null at hn
      split at hn
      · injection hn with hn
        injection h with h
        subst h; subst hn
        simp
      · exact absurd hn (by simp)
    · split at h
      · rename_i hu
        unfold check_unique at hu
        split at hu
        · split at hu
          · split at hu
            · injection hu with hu
              injection h with h
              subst h; subst hu
              simp
            · exact absurd hu (by simp)
          · exact absurd hu (by simp)
        · exact absurd hu (by simp)
      · exact absurd h (by simp)

/-- Pointwise-equal binary functions give equal `zipWith`s. -/
theorem zipWith_congr_fun {α β γ : Type} {f g : α → β → γ} (h : ∀ a b, f a b = g a b) :
    ∀ (l : List α) (l' : List β), List.zipWith f l l' = List.zipWith g l l'
  | [], _ => by cases ‹List β› <;> rfl
  | _ :: _, [] => rfl
  | a :: l, b :: l' => by
      simp only [List.zipWith, h a b, zipWith_congr_fun h l l']

/-- Successful constraint application produces exactly the defaulted values,
column by column, and preserves the default-value map. -/
theorem vac_ok_shape :
    ∀ (cols : List Column) (vals : List Value) (cs : ConstraintState)
      (vs' : List Value) (cs' : ConstraintState),
      validate_and_apply_constraints cols vals cs = (.ok vs', cs') →
      cols.length = vals.length →
      vs' = List.zipWith (fun c v => apply_default_if_null v c cs) cols vals ∧
        cs'.default_values = cs.default_values
  | [], [], cs, vs', cs', h, _ => by
      simp only [validate_and_apply_constraints] at h
      injection h with h₁ h₂
      injection h₁ with h₁
      subst h₁; subst h₂
      exact ⟨rfl, rfl⟩
  | [], _ :: _, _, _, _, _, hlen => by simp at hlen
  | _ :: _, [], _, _, _, _, hlen => by simp at hlen
  | c :: cols, v :: vs, cs, vs', cs', h, hlen => by
      simp only [validate_and_apply_constraints] at h
      split at h
      next e₀ hp => exact absurd (congrArg Prod.fst h) (by simp)
      next v₁ csm hp =>
        split at h
        next e₁ cs₂ hrec => exact absurd (congrArg Prod.fst h) (by simp)
        next vs₁ cs₁ hrec =>
          injection h with h₁ h₂
          injection h₁ with h₁
          subst h₁; subst h₂
          obtain ⟨hv, hd⟩ := processColumn_ok_shape hp
          obtain ⟨htail, hd'⟩ := vac_ok_shape cols vs csm vs₁ cs₁ hrec (by simpa using hlen)
          refine ⟨?_, by rw [hd']; exact hd⟩
          simp only [List.zipWith_cons_cons]
          refine congrArg₂ List.cons (by simpa using hv) ?_
          rw [htail]
          exact zipWith_congr_fun (fun c' v' => apply_default_if_null_congr hd v' c') cols vs

/-- A failing constraint application never reports `WrongValueCount`. -/
theorem vac_error_not_count :
    ∀ (cols : List Column) (vals : List Value) (cs : ConstraintState)
      (e : RowErrors) (cs' : ConstraintState),
      validate_and_apply_constraints cols vals cs = (.error e, cs') →
      ∀ expected got, e ≠ RowErrors.WrongValueCount expected got
  | [], vals, cs, e, cs', h => by
      simp only [validate_and_apply_constraints] at h
      exact absurd (congrArg Prod.fst h) (by simp)
  | _ :: _, [], cs, e, cs', h => by
      simp only [validate_and_apply_constraints] at h
      exact absurd (congrArg Prod.fst h) (by simp)
  | c :: cols, v :: vs, cs, e, cs', h => by
      simp only [validate_and_apply_constraints] at h
      split at h
      next e₀ hp =>
        have he : e₀ = e := by simpa using congrArg Prod.fst h
        subst he
        exact processColumn_error_not_count hp
      next v₁ csm hp =>
        split at h
        next e₁ cs₂ hrec =>
          have he : e₁ = e := by simpa using congrArg Prod.fst h
          subst he
          exact vac_error_not_count cols vs csm e₁ cs₂ hrec
        next vs₁ cs₁ hrec => exact absurd (congrArg Prod.fst h) (by simp)

/-- On failure, the caller's state is exactly the state after the successful
processing of the columns before the failing one: the failing column itself
contributes nothing. -/
theorem vac_error_prefix :
    ∀ (cols : List Column) (vals : List Value) (cs : ConstraintState)
      (e : RowErrors) (cs' : ConstraintState),
      validate_and_apply_constraints cols vals cs = (.error e, cs') →
      ∃ (k : Nat) (vs₁ : List Value) (ck : Column) (vk : Value),
        validate_and_apply_constraints (cols.take k) (vals.take k) cs = (.ok vs₁, cs') ∧
        cols.get? k = some ck ∧ vals.get? k = some vk ∧
        processColumn ck vk cs' = .error e
  | [], vals, cs, e, cs', h => by
      simp only [validate_and_apply_constraints] at h
      exact absurd (congrArg Prod.fst h) (by simp)
  | _ :: _, [], cs, e, cs', h => by
      simp only [validate_and_apply_constraints] at h
      exact absurd (congrArg Prod.fst h) (by simp)
  | c :: cols, v :: vs, cs, e, cs', h => by
      simp only [validate_and_apply_constraints] at h
      split at h
      next e₀ hp =>
        injection h with h₁ h₂
        injection h₁ with h₁
        subst h₁; subst h₂
        exact ⟨0, [], c, v, by simp [validate_and_apply_constraints], rfl, rfl, hp⟩
      next v₁ csm hp =>
        split at h
        next e₁ cs₂ hrec =>
          injection h with h₁ h₂
          injection h₁ with h₁
          subst h₁; subst h₂
          obtain ⟨k, vs₁, ck, vk, hpre, hck, hvk, hfail⟩ :=
            vac_error_prefix cols vs csm e₁ cs₂ hrec
          refine ⟨k + 1, v₁ :: vs₁, ck, vk, ?_, by simpa using hck, by simpa using hvk, hfail⟩
          simp only [List.take_succ_cons, validate_and_apply_constraints, hp, hpre]
        next vs₁ cs₁ hrec => exact absurd (congrArg Prod.fst h) (by simp)

-- ==========================================================================
-- Claims C1 and C2 (Row construction)
-- ==========================================================================

/-- C1: `Row::new` first checks that the number of supplied values equals the
number of schema columns, failing with `WrongValueCount` before any
per-column rule runs (state untouched); with a correct count it either
succeeds with exactly `len(schema.columns)` values that positionally match
the input after default substitution, or fails with one of the four
`RowErrors` — never `WrongValueCount`. -/
theorem claim_C1_row_construction :
    (∀ (schema : Schema) (cs : ConstraintState) (values : List Value),
        values.length ≠ schema.columns.length →
        Row.new schema cs values =
          (.error (.WrongValueCount schema.columns.length values.length), cs)) ∧
    (∀ (schema : Schema) (cs : ConstraintState) (values : List Value)
        (row : Row) (cs' : ConstraintState),
        values.length = schema.columns.length →
        Row.new schema cs values = (.ok row, cs') →
        row.values =
            List.zipWith (fun c v => apply_default_if_null v c cs) schema.columns values ∧
          row.values.length = schema.columns.length) ∧
    (∀ (schema : Schema) (cs : ConstraintState) (values : List Value)
        (e : RowErrors) (cs' : ConstraintState),
        values.length = schema.columns.length →
        Row.new schema cs values = (.error e, cs') →
        ∀ expected got, e ≠ RowErrors.WrongValueCount expected got) := by
  refine ⟨?_, ?_, ?_⟩
  · intro schema cs values h
    simp only [Row.new, validate_value_count]
    rw [if_pos h]
  · intro schema cs values row cs' hlen h
    have hok : validate_value_count values schema = .ok () := by
      unfold validate_value_count
      rw [if_neg (fun hne => hne hlen)]
    simp only [Row.new, hok] at h
    split at h
    next e₀ cs₀ hvac => exact absurd (congrArg Prod.fst h) (by simp)
    next vs₀ cs₀ hvac =>
      injection h with h₁ h₂
      injection h₁ with h₁
      subst h₁; subst h₂
      obtain ⟨hshape, _⟩ := vac_ok_shape schema.columns values cs vs₀ cs₀ hvac hlen.symm
      refine ⟨hshape, ?_⟩
      rw [hshape, List.length_zipWith, hlen, Nat.min_self]
  · intro schema cs values e cs' hlen h
    have hok : validate_value_count values schema = .ok () := by
      unfold validate_value_count
      rw [if_neg (fun hne => hne hlen)]
    simp only [Row.new, hok] at h
    split at h
    next e₀ cs₀ hvac =>
      have he : e₀ = e := by simpa using congrArg Prod.fst h
      subst he
      exact vac_error_not_count schema.columns values cs e₀ cs₀ hvac
    next vs₀ cs₀ hvac => exact absurd (congrArg Prod.fst h) (by simp)

/-- Witness for C1: one concrete run per conjunct — a wrong-count failure,
a successful construction, and a correct-count failure whose error is not
`WrongValueCount`. -/
theorem claim_C1_row_construction_witness :
    Row.new ⟨[⟨"id", DataType.Integer, []⟩]⟩ ⟨[], [], [], []⟩ []
        = (.error (.WrongValueCount 1 0), ⟨[], [], [], []⟩) ∧
    (Row.mk [Value.Integer 5]).values
        = List.zipWith (fun c v => apply_default_if_null v c ⟨[], [], [], []⟩)
            [⟨"id", DataType.Integer, []⟩] [Value.Integer 5] ∧
    RowErrors.TypeMismatch "id" DataType.Integer (Value.String "x") DataType.String
      ≠ RowErrors.WrongValueCount 1 1 := by
  refine ⟨claim_C1_row_construction.1 ⟨[⟨"id", DataType.Integer, []⟩]⟩ ⟨[], [], [], []⟩ []
      (by decide), ?_, ?_⟩
  · exact (claim_C1_row_construction.2.1 ⟨[⟨"id", DataType.Integer, []⟩]⟩ ⟨[], [], [], []⟩
      [Value.Integer 5] ⟨[Value.Integer 5]⟩ ⟨[], [], [], []⟩ (by decide) (by decide)).1
  · exact claim_C1_row_construction.2.2 ⟨[⟨"id", DataType.Integer, []⟩]⟩ ⟨[], [], [], []⟩
      [Value.String "x"]
      (.TypeMismatch "id" DataType.Integer (Value.String "x") DataType.String)
      ⟨[], [], [], []⟩ (by decide) (by decide) 1 1

/-- C2 counterexample: on the two-column schema
`[a : String Unique, b : Integer NotNull]` with its freshly derived
`ConstraintState`, constructing the row `["x", Null]` fails with
`NotNullViolated b`, yet the `ConstraintState` is NOT left unchanged — the
uniqueness seen-set of the earlier column `a` has gained the value `"x"`. -/
theorem claim_C2_counterexample :
    ConstraintState.new ⟨[⟨"a", DataType.String, [.Unit .Unique]⟩,
        ⟨"b", DataType.Integer, [.Unit .NotNull]⟩]⟩
      = ⟨[("a", [])], ["b"], [], []⟩ ∧
    Row.new ⟨[⟨"a", DataType.String, [.Unit .Unique]⟩,
        ⟨"b", DataType.Integer, [.Unit .NotNull]⟩]⟩
      ⟨[("a", [])], ["b"], [], []⟩ [Value.String "x", Value.Null]
      = (.error (.NotNullViolated "b"), ⟨[("a", [Value.String "x"])], ["b"], [], []⟩) ∧
    (⟨[("a", [Value.String "x"])], ["b"], [], []⟩ : ConstraintState)
      ≠ ⟨[("a", [])], ["b"], [], []⟩ := by
  decide

/-- C2 (amended): if `Row::new` fails, the `ConstraintState` is either left
unchanged (count mismatch, or failure at the first column) or is exactly the
state produced by the successful processing of the columns strictly before
the failing column — the failing column itself adds no seen-set or index
entry, but earlier columns' additions remain. -/
theorem claim_C2_failed_validation_state :
    ∀ (schema : Schema) (cs : ConstraintState) (values : List Value)
      (e : RowErrors) (cs' : ConstraintState),
      Row.new schema cs values = (.error e, cs') →
      cs' = cs ∨
        ∃ (k : Nat) (vs₁ : List Value) (ck : Column) (vk : Value),
          validate_and_apply_constraints (schema.columns.take k) (values.take k) cs
              = (.ok vs₁, cs') ∧
          schema.columns.get? k = some ck ∧ values.get? k = some vk ∧
          processColumn ck vk cs' = .error e := by
  intro schema cs values e cs' h
  simp only [Row.new] at h
  split at h
  next e₀ hcount =>
    left
    exact (by simpa using congrArg Prod.snd h : cs = cs').symm
  next hcount =>
    split at h
    next e₀ cs₀ hvac =>
      right
      have he : e₀ = e := by simpa using congrArg Prod.fst h
      have hcs : cs₀ = cs' := by simpa using congrArg Prod.snd h
      subst he; subst hcs
      exact vac_error_prefix schema.columns values cs e₀ cs₀ hvac
    next vs₀ cs₀ hvac => exact absurd (congrArg Prod.fst h) (by simp)

/-- Witness for the amended C2, at the counterexample input: the failure
state is reached by successfully processing only column `a`, and column `b`
is the failing column. -/
theorem claim_C2_failed_validation_state_witness :
    (⟨[("a", [Value.String "x"])], ["b"], [], []⟩ : ConstraintState)
        = ⟨[("a", [])], ["b"], [], []⟩ ∨
      ∃ (k : Nat) (vs₁ : List Value) (ck : Column) (vk : Value),
        validate_and_apply_constraints
            (([⟨"a", DataType.String, [.Unit .Unique]⟩,
                ⟨"b", DataType.Integer, [.Unit .NotNull]⟩] : List Column).take k)
            (([Value.String "x", Value.Null] : List Value).take k)
            ⟨[("a", [])], ["b"], [], []⟩
          = (.ok vs₁, ⟨[("a", [Value.String "x"])], ["b"], [], []⟩) ∧
        ([⟨"a", DataType.String, [.Unit .Unique]⟩,
            ⟨"b", DataType.Integer, [.Unit .NotNull]⟩] : List Column).get? k = some ck ∧
        ([Value.String "x", Value.Null] : List Value).get? k = some vk ∧
        processColumn ck vk ⟨[("a", [Value.String "x"])], ["b"], [], []⟩
          = .error (.NotNullViolated "b") :=
  claim_C2_failed_validation_state
    ⟨[⟨"a", DataType.String, [.Unit .Unique]⟩, ⟨"b", DataType.Integer, [.Unit .NotNull]⟩]⟩
    ⟨[("a", [])], ["b"], [], []⟩ [Value.String "x", Value.Null]
    (.NotNullViolated "b") ⟨[("a", [Value.String "x"])], ["b"], [], []⟩ (by decide)

-- ==========================================================================
-- Claims C3 and C4 (uniqueness and defaults)
-- ==========================================================================

/-- C3: on a schema with a Unique column, constructing a row with a non-Null
value of the column's type succeeds and records the value in the seen-set;
constructing a second row with the same value from the resulting state fails
with `UniqueViolated` naming that column and value. A Null value in the
Unique column is exempt: construction succeeds and returns the state
unchanged, so a second Null row (the same call on the same state) succeeds
as well. -/
theorem claim_C3_unique_column :
    ∀ (nm : String) (dt : DataType),
      (∀ (v : Value), v.get_data_type = dt → v ≠ Value.Null →
        Row.new ⟨[⟨nm, dt, [.Unit .Unique]⟩]⟩
            (ConstraintState.new ⟨[⟨nm, dt, [.Unit .Unique]⟩]⟩) [v]
          = (.ok ⟨[v]⟩, ⟨[(nm, [v])], [], [], []⟩) ∧
        (Row.new ⟨[⟨nm, dt, [.Unit .Unique]⟩]⟩ ⟨[(nm, [v])], [], [], []⟩ [v]).1
          = .error (.UniqueViolated nm v)) ∧
      Row.new ⟨[⟨nm, dt, [.Unit .Unique]⟩]⟩
          (ConstraintState.new ⟨[⟨nm, dt, [.Unit .Unique]⟩]⟩) [Value.Null]
        = (.ok ⟨[Value.Null]⟩, ConstraintState.new ⟨[⟨nm, dt, [.Unit .Unique]⟩]⟩) := by
  intro nm dt
  have hcs : ConstraintState.new ⟨[⟨nm, dt, [.Unit .Unique]⟩]⟩
      = ⟨[(nm, [])], [], [], []⟩ := by
    simp [ConstraintState.new, ConstraintState.from_schema, fromSchemaStep, alistInsert]
  refine ⟨fun v hdt hv => ⟨?_, ?_⟩, ?_⟩
  · rw [hcs]
    simp [Row.new, validate_value_count, validate_and_apply_constraints, processColumn,
      validate_type, apply_default_if_null, check_not_null, check_unique, check_if_indexed,
      alistGet, alistInsert, hashSetInsert, hv, hdt]
  · simp [Row.new, validate_value_count, validate_and_apply_constraints, processColumn,
      validate_type, apply_default_if_null, check_not_null, check_unique, check_if_indexed,
      alistGet, alistInsert, hashSetInsert, hv, hdt]
  · rw [hcs]
    simp [Row.new, validate_value_count, validate_and_apply_constraints, processColumn,
      validate_type, apply_default_if_null, check_not_null, check_unique, check_if_indexed,
      alistGet]

/-- Witness for C3 at column `email : String Unique` and value `"x"`. -/
theorem claim_C3_unique_column_witness :
    (Row.new ⟨[⟨"email", DataType.String, [.Unit .Unique]⟩]⟩
        (ConstraintState.new ⟨[⟨"email", DataType.String, [.Unit .Unique]⟩]⟩)
        [Value.String "x"]
      = (.ok ⟨[Value.String "x"]⟩, ⟨[("email", [Value.String "x"])], [], [], []⟩)) ∧
    (Row.new ⟨[⟨"email", DataType.String, [.Unit .Unique]⟩]⟩
        ⟨[("email", [Value.String "x"])], [], [], []⟩ [Value.String "x"]).1
      = .error (.UniqueViolated "email" (Value.String "x")) ∧
    Row.new ⟨[⟨"email", DataType.String, [.Unit .Unique]⟩]⟩
        (ConstraintState.new ⟨[⟨"email", DataType.String, [.Unit .Unique]⟩]⟩) [Value.Null]
      = (.ok ⟨[Value.Null]⟩,
          ConstraintState.new ⟨[⟨"email", DataType.String, [.Unit .Unique]⟩]⟩) := by
  obtain ⟨h₁, h₂⟩ := claim_C3_unique_column "email" DataType.String
  obtain ⟨ha, hb⟩ := h₁ (Value.String "x") (by decide) (by decide)
  exact ⟨ha, hb, h₂⟩

/-- C4: default substitution — a non-Null input is never overwritten by the
default; a Null input takes the column's stored default; and on a
NotNull+Default column an explicit Null input is accepted end-to-end (the
substitution runs before the not-null check) and the constructed row stores
the default. -/
theorem claim_C4_default_substitution :
    (∀ (v : Value) (c : Column) (cs : ConstraintState), v ≠ Value.Null →
        apply_default_if_null v c cs = v) ∧
    (∀ (c : Column) (cs : ConstraintState) (d : Value),
        alistGet c.name cs.default_values = some d →
        apply_default_if_null Value.Null c cs = d) ∧
    (∀ (nm : String) (dt : DataType) (d : Value), d ≠ Value.Null →
        Row.new ⟨[⟨nm, dt, [.Unit .NotNull, .WithValue .Default d]⟩]⟩
            (ConstraintState.new ⟨[⟨nm, dt, [.Unit .NotNull, .WithValue .Default d]⟩]⟩)
            [Value.Null]
          = (.ok ⟨[d]⟩,
              ConstraintState.new ⟨[⟨nm, dt, [.Unit .NotNull, .WithValue .Default d]⟩]⟩)) := by
  refine ⟨?_, ?_, ?_⟩
  · intro v c cs hv
    simp [apply_default_if_null, hv]
  · intro c cs d hd
    simp [apply_default_if_null, hd]
  · intro nm dt d hd
    have hcs : ConstraintState.new ⟨[⟨nm, dt, [.Unit .NotNull, .WithValue .Default d]⟩]⟩
        = ⟨[], [nm], [(nm, d)], []⟩ := by
      simp [ConstraintState.new, ConstraintState.from_schema, fromSchemaStep,
        alistInsert, strSetAdd]
    rw [hcs]
    simp [Row.new, validate_value_count, validate_and_apply_constraints, processColumn,
      validate_type, apply_default_if_null, check_not_null, check_unique, check_if_indexed,
      alistGet, hd]

/-- Witness for C4: a concrete non-Null value survives, a concrete Null takes
the default, and a NotNull+Default String column accepts a Null input. -/
theorem claim_C4_default_substitution_witness :
    apply_default_if_null (Value.Integer 7) ⟨"s", DataType.Integer, []⟩ ⟨[], [], [], []⟩
        = Value.Integer 7 ∧
    apply_default_if_null Value.Null ⟨"s", DataType.Integer, []⟩
        ⟨[], [], [("s", Value.Integer 0)], []⟩ = Value.Integer 0 ∧
    Row.new ⟨[⟨"status", DataType.String,
          [.Unit .NotNull, .WithValue .Default (Value.String "active")]⟩]⟩
        (ConstraintState.new ⟨[⟨"status", DataType.String,
          [.Unit .NotNull, .WithValue .Default (Value.String "active")]⟩]⟩)
        [Value.Null]
      = (.ok ⟨[Value.String "active"]⟩,
          ConstraintState.new ⟨[⟨"status", DataType.String,
            [.Unit .NotNull, .WithValue .Default (Value.String "active")]⟩]⟩) := by
  refine ⟨claim_C4_default_substitution.1 (Value.Integer 7) ⟨"s", DataType.Integer, []⟩
      ⟨[], [], [], []⟩ (by decide), ?_, ?_⟩
  · exact claim_C4_default_substitution.2.1 ⟨"s", DataType.Integer, []⟩
      ⟨[], [], [("s", Value.Integer 0)], []⟩ (Value.Integer 0) (by decide)
  · exact claim_C4_default_substitution.2.2 "status" DataType.String
      (Value.String "active") (by decide)

-- ==========================================================================
-- Claims C10 and C6 (Table operations)
-- ==========================================================================

/-- C10: `delete_row` never touches the `ConstraintState` (in particular the
uniqueness seen-sets and indexes), so after deleting the only row holding a
non-Null value `v` of a Unique column, adding a new row that supplies `v`
again still fails with `UniqueViolated` — shown concretely on a one-column
Unique table. -/
theorem claim_C10_deleted_unique_values_stay_reserved :
    (∀ (t : Table) (idx : Nat),
        ((t.delete_row idx).2).constraint_state = t.constraint_state) ∧
    (let t0 := Table.new ⟨[⟨"u", DataType.String, [.Unit .Unique]⟩]⟩
     let a1 := t0.add_row [Value.String "v"]
     let d1 := a1.2.delete_row 0
     let a2 := d1.2.add_row [Value.String "v"]
     a1.1 = .ok 0 ∧ d1.1 = .ok () ∧ a1.2.get_row 0 = some ⟨[Value.String "v"]⟩ ∧
       d1.2.rows = [] ∧
       a2.1 = .error (.RowConstructionError (.UniqueViolated "u" (Value.String "v")))) := by
  constructor
  · intro t idx
    unfold Table.delete_row
    split <;> rfl
  · decide

/-- C6 is refuted by this run: `add_row` assigns `row_id = rows.len()`, so
after adding rows 0 and 1 and deleting row 0, the next `add_row` returns id
1 again — an id that was already assigned — and silently replaces the stored
row 1 (the table still holds a single row afterwards). -/
theorem claim_C6_row_id_reused_after_delete :
    let t0 : Table := Table.new ⟨[⟨"id", DataType.Integer, []⟩]⟩
    let a1 := t0.add_row [Value.Integer 1]
    let a2 := a1.2.add_row [Value.Integer 2]
    let d1 := a2.2.delete_row 0
    let a3 := d1.2.add_row [Value.Integer 3]
    a1.1 = .ok 0 ∧ a2.1 = .ok 1 ∧ d1.1 = .ok () ∧
      a3.1 = .ok 1 ∧
      a2.2.get_row 1 = some ⟨[Value.Integer 2]⟩ ∧
      a3.2.get_row 1 = some ⟨[Value.Integer 3]⟩ ∧
      a3.2.rows.length = 1 := by
  decide

-- ==========================================================================
-- Parser AST (src/parser.rs, data types)
-- ==========================================================================

/-- `Literal` from `src/parser.rs`. -/
inductive Literal where
  | String (s : String)
  | Integer (n : Int)
  | Boolean (b : Bool)
deriving DecidableEq, Repr

/-- `BinaryOperator` from `src/parser.rs`. -/
inductive BinaryOperator where
  | Equals
  | NotEquals
  | GreaterThan
  | LessThan
  | GreaterThanOrEquals
  | LessThanOrEquals
  | And
  | Or
deriving DecidableEq, Repr

/-- `Expression` from `src/parser.rs`. -/
inductive Expression where
  | Literal (l : Literal)
  | Identifier (name : String)
  | Binary (left : Expression) (op : BinaryOperator) (right : Expression)
deriving DecidableEq, Repr

/-- `SelectColumn` from `src/parser.rs`. -/
inductive SelectColumn where
  | Wildcard
  | Identifier (name : String)
deriving DecidableEq, Repr

/-- `SelectStatement` from `src/parser.rs`. -/
structure SelectStatement where
  columns : List SelectColumn
  from_table : String
  where_clause : Option Expression
deriving DecidableEq, Repr

/-- `InsertStatement` from `src/parser.rs`. -/
structure InsertStatement where
  table_name : String
  values : List Literal
  columns : List String
deriving DecidableEq, Repr

/-- `ColumnDefinition` from `src/parser.rs`. -/
structure ColumnDefinition where
  name : String
  data_type : DataType
deriving DecidableEq, Repr

/-- `CreateTableStatement` from `src/parser.rs`. -/
structure CreateTableStatement where
  table_name : String
  columns : List ColumnDefinition
deriving DecidableEq, Repr

/-- `Statements` from `src/parser.rs`. -/
inductive Statements where
  | Select (s : SelectStatement)
  | Insert (s : InsertStatement)
  | CreateTable (s : CreateTableStatement)
deriving DecidableEq, Repr

-- ==========================================================================
-- Database (src/database.rs, the part the executor consumes)
-- ==========================================================================

/-- `DatabaseError` from `src/database.rs`. -/
inductive DatabaseError where
  | DuplicateTableName (name : String)
  | TableNotFound (name : String)
deriving DecidableEq, Repr

/-- `Database` from `src/database.rs` (`HashMap<String, Table>` as an
association list). -/
structure Database where
  tables : List (String × Table)
deriving DecidableEq, Repr

/-- `Database::get_table`. -/
def Database.get_table (db : Database) (name : String) : Except DatabaseError Table :=
  match (db.tables.find? (fun p => p.1 == name)).map (·.2) with
  | some t => .ok t
  | none => .error (.TableNotFound name)

-- ==========================================================================
-- Executor (src/executor.rs)
-- ==========================================================================

/-- `ExecutionError` from `src/executor.rs`. -/
inductive ExecutionError where
  | TableNotFound
  | ColumnNotFound (name : String)
  | InvalidExpression
  | TypeMismatch
deriving DecidableEq, Repr

/-- Outcome of an executor computation: an `Ok` value, a `Result::Err`
failure value, or a panic (`unimplemented!` / out-of-bounds indexing) —
panics are kept distinct from returned failure values. -/
inductive ExecResult (α : Type) where
  | ok (a : α)
  | err (e : ExecutionError)
  | panicked (msg : String)
deriving DecidableEq, Repr

/-- `QueryResult` from `src/executor.rs`. -/
structure QueryResult where
  rows : List Row
deriving DecidableEq, Repr

/-- `Executor::resolve_value`: identifier → column position via the
schema's name lookup; `row.values[col_index]` panics when out of bounds. -/
def resolve_value (expr : Expression) (row : Row) (schema : Schema) : ExecResult Value :=
  match expr with
  | .Identifier col_name =>
      match schema.get_column_index col_name with
      | none => .err (.ColumnNotFound col_name)
      | some i =>
          match row.values.get? i with
          | some v => .ok v
          | none => .panicked "index out of bounds"
  | _ => .err .InvalidExpression

/-- `Executor::resolve_value_from_literal` (`Boolean` hits the
`unimplemented!` arm). -/
def resolve_value_from_literal (expr : Expression) : ExecResult Value :=
  match expr with
  | .Literal (.Integer i) => .ok (.Integer i)
  | .Literal (.String s) => .ok (.String s)
  | .Literal (.Boolean _) => .panicked "not implemented"
  | _ => .err .InvalidExpression

/-- `Executor::evaluate_expression`: only `identifier = literal` is
implemented; every other operator hits `unimplemented!("Operator not
supported yet")` and every non-binary expression hits the other
`unimplemented!` arm. -/
def evaluate_expression (expr : Expression) (row : Row) (schema : Schema) : ExecResult Bool :=
  match expr with
  | .Binary left op right =>
      match resolve_value left row schema with
      | .err e => .err e
      | .panicked m => .panicked m
      | .ok left_val =>
          match resolve_value_from_literal right with
          | .err e => .err e
          | .panicked m => .panicked m
          | .ok right_val =>
              match op with
              | .Equals => .ok (left_val == right_val)
              | _ => .panicked "Operator not supported yet"
  | _ => .panicked "Expression type not supported yet"

/-- The `filter_map` over stored rows in `Executor::execute_select`: a WHERE
evaluation failure is discarded by `.ok()` / `unwrap_or(false)` — the row is
silently excluded; a panic propagates. -/
def filterRows (wc : Option Expression) (schema : Schema) : List Row → ExecResult (List Row)
  | [] => .ok []
  | r :: rs =>
      match (match wc with
             | some e => evaluate_expression e r schema
             | none => .ok true : ExecResult Bool) with
      | .panicked m => .panicked m
      | .err _ => filterRows wc schema rs
      | .ok true =>
          match filterRows wc schema rs with
          | .ok rest => .ok (r :: rest)
          | other => other
      | .ok false => filterRows wc schema rs

/-- The index-collection loop of `Executor::project_columns` (wildcards in a
non-wildcard projection list are silently skipped by the `if let`). -/
def collectIndices (schema : Schema) : List SelectColumn → Except ExecutionError (List Nat)
  | [] => .ok []
  | .Identifier name :: rest =>
      match schema.get_column_index name with
      | none => .error (.ColumnNotFound name)
      | some i =>
          match collectIndices schema rest with
          | .error e => .error e
          | .ok is => .ok (i :: is)
  | .Wildcard :: rest => collectIndices schema rest

/-- Projection of one row: `row.values[i]` panics when out of bounds. -/
def projectRow (row : Row) : List Nat → ExecResult (List Value)
  | [] => .ok []
  | i :: is =>
      match row.values.get? i with
      | none => .panicked "index out of bounds"
      | some v =>
          match projectRow row is with
          | .ok vs => .ok (v :: vs)
          | other => other

/-- Projection of all filtered rows. -/
def projectAll (idxs : List Nat) : List Row → ExecResult (List Row)
  | [] => .ok []
  | r :: rs =>
      match projectRow r idxs with
      | .err e => .err e
      | .panicked m => .panicked m
      | .ok vals =>
          match projectAll idxs rs with
          | .ok rest => .ok (⟨vals⟩ :: rest)
          | other => other

/-- `Executor::project_columns`. -/
def project_columns (rows : List Row) (columns : List SelectColumn) (schema : Schema) :
    ExecResult (List Row) :=
  if columns.length = 1 ∧ columns.get? 0 = some .Wildcard then
    .ok rows
  else
    match collectIndices schema columns with
    | .error e => .err e
    | .ok idxs => projectAll idxs rows

/-- `Executor::execute_select`. -/
def execute_select (stmt : SelectStatement) (db : Database) : ExecResult QueryResult :=
  match db.get_table stmt.from_table with
  | .error _ => .err .TableNotFound
  | .ok table =>
      match filterRows stmt.where_clause table.schema (table.rows.map (·.2)) with
      | .err e => .err e
      | .panicked m => .panicked m
      | .ok filtered =>
          match project_columns filtered stmt.columns table.schema with
          | .err e => .err e
          | .panicked m => .panicked m
          | .ok final_rows => .ok ⟨final_rows⟩

/-- `Executor::execute` (non-SELECT statements hit `unimplemented!`). -/
def execute (ast : Statements) (db : Database) : ExecResult QueryResult :=
  match ast with
  | .Select stmt => execute_select stmt db
  | _ => .panicked "not implemented"

-- ==========================================================================
-- Claim C5 (WHERE-clause failure reporting)
-- ==========================================================================

/-- C5 is refuted by this run: on a table `users([id : Integer])` holding the
single row `[1]`, the WHERE clause `nosuch = 1` makes `evaluate_expression`
fail with `ColumnNotFound "nosuch"` for the stored row, yet `execute_select`
returns `Ok` with an empty result — the failure is discarded by
`.ok()`/`unwrap_or(false)` and the row is silently excluded instead of the
failure being reported. A non-`=` operator does not produce a reportable
failure value either: it panics via `unimplemented!`. (A wildcard query
without WHERE returns the stored row, so the emptiness above is the
swallowed error, not an empty table.) -/
theorem claim_C5_where_failure_swallowed :
    let usersTable : Table :=
      { schema := ⟨[⟨"id", DataType.Integer, []⟩]⟩,
        rows := [(0, ⟨[Value.Integer 1]⟩)],
        constraint_state := ⟨[], [], [], []⟩ }
    let db : Database := ⟨[("users", usersTable)]⟩
    evaluate_expression (.Binary (.Identifier "nosuch") .Equals (.Literal (.Integer 1)))
        ⟨[Value.Integer 1]⟩ usersTable.schema = .err (.ColumnNotFound "nosuch") ∧
    execute_select ⟨[.Wildcard], "users",
        some (.Binary (.Identifier "nosuch") .Equals (.Literal (.Integer 1)))⟩ db
      = .ok ⟨[]⟩ ∧
    execute_select ⟨[.Wildcard], "users",
        some (.Binary (.Identifier "id") .GreaterThan (.Literal (.Integer 0)))⟩ db
      = .panicked "Operator not supported yet" ∧
    execute_select ⟨[.Wildcard], "users", none⟩ db = .ok ⟨[⟨[Value.Integer 1]⟩]⟩ := by
  decide

-- ==========================================================================
-- Tokenizer (src/tokenizer.rs)
-- ==========================================================================

/-- `TokenizerError` from `src/tokenizer.rs` (the offending character is
kept as its byte value). -/
inductive TokenizerError where
  | UnexpectedCharacter (ch : Nat) (pos : Nat)
  | UnterminatedString (pos : Nat)
  | InvalidNumeric (s : String) (pos : Nat)
  | EmptyInput
  | InvalidIdentifier (s : String) (pos : Nat)
  | UnexpectedEof
deriving DecidableEq, Repr

/-- `Token` from `src/tokenizer.rs`. -/
inductive Token where
  | Select
  | From
  | Where
  | Insert
  | Delete
  | Into
  | Values
  | Identifier (s : String)
  | StringLiteral (s : String)
  | NumericLiteral (s : String)
  | Semicolon
  | Asterisk
  | OpenBracket
  | CloseBracket
  | Comma
  | Index
  | Table
  | Database
  | Equals
  | NotEquals
  | GreaterThan
  | LessThan
  | GreaterThanOrEquals
  | LessThanOrEquals
  | And
  | Or
  | CreateTable
  | Create
  | Drop
  | Alter
  | Eof
deriving DecidableEq, Repr

/-- `Tokenizer` state from `src/tokenizer.rs`: the input as its byte
sequence, the scan position, and the current byte (`0` past the end). -/
structure Tokenizer where
  input : List Nat
  position : Nat
  ch : Nat
deriving DecidableEq, Repr

/-- `Tokenizer::read_char`. -/
def Tokenizer.read_char (t : Tokenizer) : Tokenizer :=
  if t.position ≥ t.input.length then
    { t with ch := 0, position := t.position + 1 }
  else
    { t with ch := t.input.getD t.position 0, position := t.position + 1 }

/-- `Tokenizer::new`. -/
def Tokenizer.mkNew (input : List Nat) : Tokenizer :=
  Tokenizer.read_char { input := input, position := 0, ch := 0 }

/-- `u8::is_ascii_whitespace`: space, tab, newline, form feed, carriage
return. -/
def isWsByte (b : Nat) : Bool :=
  b = 32 ∨ b = 9 ∨ b = 10 ∨ b = 12 ∨ b = 13

/-- `[A-Za-z_]`, the first character of an identifier. -/
def isIdentStartByte (b : Nat) : Bool :=
  (65 ≤ b ∧ b ≤ 90) ∨ (97 ≤ b ∧ b ≤ 122) ∨ b = 95

/-- `u8::is_ascii_alphanumeric(..) || b == '_'`, an identifier continuation
character. -/
def isIdentByte (b : Nat) : Bool :=
  (65 ≤ b ∧ b ≤ 90) ∨ (97 ≤ b ∧ b ≤ 122) ∨ (48 ≤ b ∧ b ≤ 57) ∨ b = 95

/-- `u8::is_ascii_digit`. -/
def isDigitByte (b : Nat) : Bool :=
  48 ≤ b ∧ b ≤ 57

/-- The byte slice `input[a..b]` decoded as a string (inputs are ASCII). -/
def sliceToString (input : List Nat) (a b : Nat) : String :=
  String.mk (((input.drop a).take (b - a)).map Char.ofNat)

/-- `Tokenizer::skip_whitespace` (`while`-loop written with explicit fuel;
any fuel of at least `input.length + 1` is enough because every step
consumes one input byte and the end-of-input byte `0` is not whitespace). -/
def skip_whitespace : Nat → Tokenizer → Tokenizer
  | 0, t => t
  | fuel + 1, t => if isWsByte t.ch then skip_whitespace fuel t.read_char else t

/-- The scan loop of `Tokenizer::read_identifier`. -/
def identLoop : Nat → Tokenizer → Tokenizer
  | 0, t => t
  | fuel + 1, t => if isIdentByte t.ch then identLoop fuel t.read_char else t

/-- `Tokenizer::read_identifier`. -/
def read_identifier (fuel : Nat) (t : Tokenizer) : String × Tokenizer :=
  let start := t.position - 1
  let t' := identLoop fuel t
  (sliceToString t.input start (t'.position - 1), t')

/-- The scan loop of `Tokenizer::read_numeric_literal`. -/
def digitLoop : Nat → Tokenizer → Tokenizer
  | 0, t => t
  | fuel + 1, t => if isDigitByte t.ch then digitLoop fuel t.read_char else t

/-- `Tokenizer::read_numeric_literal`. -/
def read_numeric_literal (fuel : Nat) (t : Tokenizer) : String × Tokenizer :=
  let start := t.position - 1
  let t' := digitLoop fuel t
  (sliceToString t.input start (t'.position - 1), t')

/-- The scan loop of `Tokenizer::read_string_literal`: stop at a closing
quote (byte 39), report `UnterminatedString` at the recorded start on the
end-of-input byte. -/
def stringLoop (start : Nat) : Nat → Tokenizer → Except TokenizerError Tokenizer
  | 0, _ => .error .UnexpectedEof
  | fuel + 1, t =>
      if t.ch = 39 then .ok t
      else if t.ch = 0 then .error (.UnterminatedString start)
      else stringLoop start fuel t.read_char

/-- `Tokenizer::read_string_literal`. -/
def read_string_literal (fuel : Nat) (t : Tokenizer) :
    Except TokenizerError (Token × Tokenizer) :=
  let start := t.position
  match stringLoop start fuel t.read_char with
  | .error e => .error e
  | .ok t' => .ok (.StringLiteral (sliceToString t.input start (t'.position - 1)), t')

/-- ASCII uppercasing (keywords are ASCII; `str::to_uppercase`). -/
def asciiUpper (s : String) : String :=
  String.mk (s.toList.map (fun c =>
    if 97 ≤ c.toNat ∧ c.toNat ≤ 122 then Char.ofNat (c.toNat - 32) else c))

/-- `Tokenizer::lookup_ident`. -/
def lookup_ident (ident : String) : Token :=
  match asciiUpper ident with
  | "SELECT" => .Select
  | "FROM" => .From
  | "INTO" => .Into
  | "WHERE" => .Where
  | "INSERT" => .Insert
  | "DELETE" => .Delete
  | "AND" => .And
  | "OR" => .Or
  | "VALUES" => .Values
  | _ => .Identifier ident

/-- `Tokenizer::get_next_token`. The trailing `self.read_char()` of the
symbol arms is applied to the returned state; identifier and numeric arms
return early, exactly as in the source. -/
def get_next_token (fuel : Nat) (t₀ : Tokenizer) :
    Except TokenizerError (Token × Tokenizer) :=
  let t := skip_whitespace fuel t₀
  if t.ch = 61 then .ok (.Equals, t.read_char)
  else if t.ch = 59 then .ok (.Semicolon, t.read_char)
  else if t.ch = 42 then .ok (.Asterisk, t.read_char)
  else if t.ch = 40 then .ok (.OpenBracket, t.read_char)
  else if t.ch = 41 then .ok (.CloseBracket, t.read_char)
  else if t.ch = 44 then .ok (.Comma, t.read_char)
  else if t.ch = 39 then
    match read_string_literal fuel t with
    | .error e => .error e
    | .ok (tok, t') => .ok (tok, t'.read_char)
  else if t.ch = 0 then .ok (.Eof, t.read_char)
  else if t.ch = 62 then
    if t.position < t.input.length ∧ t.input.getD t.position 0 = 61 then
      .ok (.GreaterThanOrEquals, t.read_char.read_char)
    else .ok (.GreaterThan, t.read_char)
  else if t.ch = 60 then
    if t.position < t.input.length ∧ t.input.getD t.position 0 = 61 then
      .ok (.LessThanOrEquals, t.read_char.read_char)
    else .ok (.LessThan, t.read_char)
  else if t.ch = 33 then
    if t.position < t.input.length ∧ t.input.getD t.position 0 = 61 then
      .ok (.NotEquals, t.read_char.read_char)
    else .error (.UnexpectedCharacter t.ch t.position)
  else if isIdentStartByte t.ch then
    let (literal, t') := read_identifier fuel t
    .ok (lookup_ident literal, t')
  else if isDigitByte t.ch then
    let (literal, t') := read_numeric_literal fuel t
    .ok (.NumericLiteral literal, t')
  else .error (.UnexpectedCharacter t.ch t.position)

/-- The token-collection loop used by the repository's tests: call
`get_next_token` until `Eof` (fuel bounds the number of tokens). -/
def tokenizeAll : Nat → Tokenizer → Except TokenizerError (List Token)
  | 0, _ => .error .UnexpectedEof
  | fuel + 1, t =>
      match get_next_token (t.input.length + 2) t with
      | .error e => .error e
      | .ok (tok, t') =>
          if tok = .Eof then .ok [tok]
          else
            match tokenizeAll fuel t' with
            | .error e => .error e
            | .ok rest => .ok (tok :: rest)

/-- A query string as its byte sequence. -/
def strToBytes (s : String) : List Nat :=
  s.toList.map Char.toNat

/-- Tokenize a whole query string. -/
def tokenize (s : String) : Except TokenizerError (List Token) :=
  tokenizeAll (s.length + 2) (Tokenizer.mkNew (strToBytes s))

-- ==========================================================================
-- Parser (src/parser.rs)
-- ==========================================================================

/-- `ParserError` from `src/parser.rs`. -/
inductive ParserError where
  | UnexpectedToken (s : String) (pos : Nat)
  | InvalidInteger (s : String) (pos : Nat)
deriving DecidableEq, Repr

/-- `Parser` from `src/parser.rs`: buffered token sequence plus a forward
cursor. -/
structure Parser where
  tokens : List Token
  position : Nat
deriving DecidableEq, Repr

/-- `Parser::new`. -/
def Parser.mkNew (tokens : List Token) : Parser :=
  { tokens := tokens, position := 0 }

/-- `Parser::current_token`: bounds-checked read; past the end it is the
reported failure `UnexpectedToken("End of input", position)`. -/
def Parser.current_token (p : Parser) : Except ParserError Token :=
  if h : p.position < p.tokens.length then
    .ok (p.tokens.get ⟨p.position, h⟩)
  else
    .error (.UnexpectedToken "End of input" p.position)

/-- `Parser::consume_token`: bounds-checked read plus advance; does not
advance on failure. -/
def Parser.consume_token (p : Parser) : Except ParserError (Token × Parser) :=
  if h : p.position < p.tokens.length then
    .ok (p.tokens.get ⟨p.position, h⟩, { p with position := p.position + 1 })
  else
    .error (.UnexpectedToken "End of input" p.position)

/-- The `{:?}` Debug rendering of a token, as interpolated into the parser's
error messages. -/
def debugToken : Token → String
  | .Select => "Select"
  | .From => "From"
  | .Where => "Where"
  | .Insert => "Insert"
  | .Delete => "Delete"
  | .Into => "Into"
  | .Values => "Values"
  | .Identifier s => "Identifier(\"" ++ s ++ "\")"
  | .StringLiteral s => "StringLiteral(\"" ++ s ++ "\")"
  | .NumericLiteral s => "NumericLiteral(\"" ++ s ++ "\")"
  | .Semicolon => "Semicolon"
  | .Asterisk => "Asterisk"
  | .OpenBracket => "OpenBracket"
  | .CloseBracket => "CloseBracket"
  | .Comma => "Comma"
  | .Index => "Index"
  | .Table => "Table"
  | .Database => "Database"
  | .Equals => "Equals"
  | .NotEquals => "NotEquals"
  | .GreaterThan => "GreaterThan"
  | .LessThan => "LessThan"
  | .GreaterThanOrEquals => "GreaterThanOrEquals"
  | .LessThanOrEquals => "LessThanOrEquals"
  | .And => "And"
  | .Or => "Or"
  | .CreateTable => "CreateTable"
  | .Create => "Create"
  | .Drop => "Drop"
  | .Alter => "Alter"
  | .Eof => "Eof"

/-- `Parser::expect_token`. -/
def Parser.expect_token (p : Parser) (expected : Token) :
    Except ParserError (Token × Parser) :=
  match p.consume_token with
  | .error e => .error e
  | .ok (token, p') =>
      if token = expected then .ok (token, p')
      else
        .error (.UnexpectedToken
          ("Expected " ++ debugToken expected ++ ", found " ++ debugToken token)
          (p'.position - 1))

/-- `Parser::match_binary_operator`. -/
def Parser.match_binary_operator (p : Parser) :
    Except ParserError (BinaryOperator × Parser) :=
  match p.consume_token with
  | .error e => .error e
  | .ok (.Equals, p') => .ok (.Equals, p')
  | .ok (.NotEquals, p') => .ok (.NotEquals, p')
  | .ok (.GreaterThan, p') => .ok (.GreaterThan, p')
  | .ok (.LessThan, p') => .ok (.LessThan, p')
  | .ok (.GreaterThanOrEquals, p') => .ok (.GreaterThanOrEquals, p')
  | .ok (.LessThanOrEquals, p') => .ok (.LessThanOrEquals, p')
  | .ok (.And, p') => .ok (.And, p')
  | .ok (.Or, p') => .ok (.Or, p')
  | .ok (t, p') =>
      .error (.UnexpectedToken
        ("Expected binary operator, found " ++ debugToken t) (p'.position - 1))

/-- `i64` range check for `n.parse::<i64>()` (the token text is an unsigned
digit sequence, so only the upper bound can fail). -/
def parseI64 (s : String) : Option Int :=
  match s.toInt? with
  | some v => if v < 2 ^ 63 then some v else none
  | none => none

/-- `Parser::parse_expression`: exactly `identifier op literal`. -/
def Parser.parse_expression (p : Parser) : Except ParserError (Expression × Parser) :=
  match p.consume_token with
  | .error e => .error e
  | .ok (.Identifier name, p₁) =>
      match p₁.match_binary_operator with
      | .error e => .error e
      | .ok (op, p₂) =>
          match p₂.consume_token with
          | .error e => .error e
          | .ok (.StringLiteral s, p₃) =>
              .ok (.Binary (.Identifier name) op (.Literal (.String s)), p₃)
          | .ok (.NumericLiteral n, p₃) =>
              match parseI64 n with
              | some v => .ok (.Binary (.Identifier name) op (.Literal (.Integer v)), p₃)
              | none => .error (.InvalidInteger n (p₃.position - 1))
          | .ok (t, p₃) =>
              .error (.UnexpectedToken
                ("Expected literal in expression, found " ++ debugToken t)
                (p₃.position - 1))
  | .ok (t, p₁) =>
      .error (.UnexpectedToken
        ("Expected identifier in expression, found " ++ debugToken t)
        (p₁.position - 1))

/-- The identifier-list loop of `Parser::parse_select_columns` (fuel bounds
the iteration count; every iteration consumes at least one token). -/
def selectColumnsLoop : Nat → Parser → List SelectColumn →
    Except ParserError (List SelectColumn × Parser)
  | 0, p, _ => .error (.UnexpectedToken "End of input" p.position)
  | fuel + 1, p, acc =>
      match p.consume_token with
      | .error e => .error e
      | .ok (.Identifier name, p₁) =>
          match p₁.current_token with
          | .ok .Comma =>
              match p₁.consume_token with
              | .error e => .error e
              | .ok (_, p₂) => selectColumnsLoop fuel p₂ (acc ++ [.Identifier name])
          | _ => .ok (acc ++ [.Identifier name], p₁)
      | .ok (t, p₁) =>
          .error (.UnexpectedToken
            ("Expected column name or \x27*\x27, found " ++ debugToken t)
            (p₁.position - 1))

/-- `Parser::parse_select_columns`. -/
def Parser.parse_select_columns (p : Parser) :
    Except ParserError (List SelectColumn × Parser) :=
  match p.current_token with
  | .ok .Asterisk =>
      match p.consume_token with
      | .error e => .error e
      | .ok (_, p₁) => .ok ([.Wildcard], p₁)
  | _ => selectColumnsLoop (p.tokens.length + 1) p []

/-- `Parser::parse_select_statement`. -/
def Parser.parse_select_statement (p : Parser) :
    Except ParserError (SelectStatement × Parser) :=
  match p.consume_token with   -- consume the SELECT token
  | .error e => .error e
  | .ok (_, p₁) =>
      match p₁.parse_select_columns with
      | .error e => .error e
      | .ok (columns, p₂) =>
          match p₂.expect_token .From with
          | .error e => .error e
          | .ok (_, p₃) =>
              match p₃.consume_token with
              | .error e => .error e
              | .ok (.Identifier name, p₄) =>
                  match (match p₄.current_token with
                         | .ok .Where =>
                             (match p₄.consume_token with
                              | .error e => .error e
                              | .ok (_, p₅) =>
                                  match p₅.parse_expression with
                                  | .error e => .error e
                                  | .ok (expr, p₆) => .ok (some expr, p₆))
                         | _ => .ok (none, p₄) :
                           Except ParserError (Option Expression × Parser)) with
                  | .error e => .error e
                  | .ok (where_clause, p₅) =>
                      match p₅.expect_token .Semicolon with
                      | .error e => .error e
                      | .ok (_, p₆) =>
                          .ok ({ columns := columns, from_table := name,
                                 where_clause := where_clause }, p₆)
              | .ok (t, p₄) =>
                  .error (.UnexpectedToken
                    ("Expected table name, found " ++ debugToken t)
                    (p₄.position - 1))

/-- `Parser::parse_statement`: statement dispatch; INSERT and CREATE TABLE
are recognized but rejected. -/
def Parser.parse_statement (p : Parser) : Except ParserError (Statements × Parser) :=
  match p.current_token with
  | .error e => .error e
  | .ok current =>
      match current with
      | .Select =>
          match p.parse_select_statement with
          | .error e => .error e
          | .ok (stmt, p') => .ok (.Select stmt, p')
      | .Insert => .error (.UnexpectedToken "INSERT" p.position)
      | .CreateTable => .error (.UnexpectedToken "CREATE TABLE" p.position)
      | t => .error (.UnexpectedToken (debugToken t) p.position)

-- ==========================================================================
-- Claims C7 and C8 (tokenizer/parser)
-- ==========================================================================

/-- C7: tokenizing `"SELECT * FROM t;"` yields exactly
`[Select, Asterisk, From, Identifier "t", Semicolon, Eof]`, and parsing that
token sequence yields a SELECT statement with wildcard columns, from-table
`"t"` and no WHERE clause. -/
theorem claim_C7_roundtrip :
    tokenize "SELECT * FROM t;"
        = .ok [.Select, .Asterisk, .From, .Identifier "t", .Semicolon, .Eof] ∧
    (Parser.parse_statement
        (Parser.mkNew [.Select, .Asterisk, .From, .Identifier "t",
          .Semicolon, .Eof])).map (·.1)
      = .ok (.Select ⟨[.Wildcard], "t", none⟩) := by
  decide

/-- C8: all of the parser's token reads go through the bounds-checked
accessors, which past the end of the stream return the reported failure
`UnexpectedToken("End of input", position)` instead of faulting; truncating
a statement mid-grammar (after nothing, `SELECT`, `SELECT * FROM`, or
`... WHERE`) therefore yields that failure value at the current position.
(In this embedding all parse functions are total Lean functions returning
`Except ParserError`, mirroring that every malformed input yields a
`ParserError` value and none panics.) -/
theorem claim_C8_parser_never_panics :
    (∀ (p : Parser), p.tokens.length ≤ p.position →
        p.current_token = .error (.UnexpectedToken "End of input" p.position)) ∧
    (∀ (p : Parser), p.tokens.length ≤ p.position →
        p.consume_token = .error (.UnexpectedToken "End of input" p.position)) ∧
    Parser.parse_statement (Parser.mkNew [])
      = .error (.UnexpectedToken "End of input" 0) ∧
    Parser.parse_statement (Parser.mkNew [.Select])
      = .error (.UnexpectedToken "End of input" 1) ∧
    Parser.parse_statement (Parser.mkNew [.Select, .Asterisk, .From])
      = .error (.UnexpectedToken "End of input" 3) ∧
    Parser.parse_statement (Parser.mkNew [.Select, .Asterisk, .From,
        .Identifier "t", .Where])
      = .error (.UnexpectedToken "End of input" 5) := by
  refine ⟨?_, ?_, by decide, by decide, by decide, by decide⟩
  · intro p h
    unfold Parser.current_token
    rw [dif_neg (by omega)]
  · intro p h
    unfold Parser.consume_token
    rw [dif_neg (by omega)]

/-- Witness for C8 at the concrete out-of-range cursor `⟨[], 3⟩`. -/
theorem claim_C8_parser_never_panics_witness :
    Parser.current_token ⟨[], 3⟩ = .error (.UnexpectedToken "End of input" 3) ∧
    Parser.consume_token ⟨[], 3⟩ = .error (.UnexpectedToken "End of input" 3) :=
  ⟨claim_C8_parser_never_panics.1 ⟨[], 3⟩ (by decide),
   claim_C8_parser_never_panics.2.1 ⟨[], 3⟩ (by decide)⟩

-- ==========================================================================
-- The stale src/schema.rs (panicking Schema::new) — claim C9
-- ==========================================================================

/-- Either a value or a panic (`panic!` unwinding), for embedding the
`src/schema.rs` code whose failure mode is panicking. -/
inductive PanicOr (α : Type) where
  | ok (a : α)
  | panicked (msg : String)
deriving DecidableEq, Repr

/-- `DataType` as defined inside `src/schema.rs` (no `Null` variant). -/
inductive DataTypeRS where
  | String
  | Integer
deriving DecidableEq, Repr

/-- Debug rendering of `DataTypeRS`, for the panic message. -/
def debugDataTypeRS : DataTypeRS → String
  | DataTypeRS.String => "String"
  | DataTypeRS.Integer => "Integer"

/-- `ConstraintType` from `src/schema.rs`. -/
inductive ConstraintTypeRS where
  | NotNull
  | Unique
  | Default (dt : DataTypeRS)
deriving DecidableEq, Repr

/-- `Constraint` from `src/schema.rs`. -/
structure ConstraintRS where
  constraint_type : ConstraintTypeRS
deriving DecidableEq, Repr

/-- `Column` from `src/schema.rs` (note the extra `index` field and the
optional constraint set, both absent from the live `column.rs` Column). -/
structure ColumnRS where
  name : String
  data_type : DataTypeRS
  index : Nat
  constraints : Option (List ConstraintRS)
deriving DecidableEq, Repr

/-- `Schema` from `src/schema.rs`. -/
structure SchemaRS where
  columns : List ColumnRS
deriving DecidableEq, Repr

/-- `Schema::create_constraints_validator` from `src/schema.rs`: panics on a
default-type mismatch, otherwise does nothing. -/
def create_constraints_validator (column : ColumnRS) : PanicOr Unit :=
  match column.constraints with
  | none => .ok ()
  | some constraints =>
      match constraints.find? (fun c =>
          match c.constraint_type with
          | .Default dt => decide (column.data_type ≠ dt)
          | _ => false) with
      | some c =>
          match c.constraint_type with
          | .Default dt =>
              .panicked ("Default constraint type mismatch for column \x27"
                ++ column.name ++ "\x27: column type is "
                ++ debugDataTypeRS column.data_type
                ++ ", default type is " ++ debugDataTypeRS dt)
          | _ => .ok ()
      | none => .ok ()

/-- The loop body state of `Schema::schema_validator`: the `columns_used`
boolean vector and the set of names seen so far. -/
def schema_validator_loop (i : Nat) (columns_used : List Bool)
    (unique_names : List String) : List ColumnRS → PanicOr Unit
  | [] => .ok ()
  | column :: rest =>
      match create_constraints_validator column with
      | .panicked m => .panicked m
      | .ok _ =>
          match columns_used.get? column.index with
          | none => .panicked "index out of bounds"   -- `columns_used[column.index]` faults
          | some true => .panicked ("Duplicate column index found: " ++ toString i)
          | some false =>
              if column.name ∈ unique_names then
                .panicked ("Duplicate column name found: " ++ column.name)
              else
                schema_validator_loop (i + 1) (columns_used.set column.index true)
                  (unique_names ++ [column.name]) rest

/-- `Schema::schema_validator` from `src/schema.rs`: returns `true` or
panics. -/
def schema_validator (schema : SchemaRS) : PanicOr Bool :=
  match schema_validator_loop 0 (List.replicate schema.columns.length false) []
      schema.columns with
  | .panicked m => .panicked m
  | .ok _ => .ok true

/-- `Schema::new` from `src/schema.rs`: panics (never returns a failure
value) when validation fails. -/
def SchemaRS.new (columns : List ColumnRS) : PanicOr SchemaRS :=
  match schema_validator ⟨columns⟩ with
  | .panicked m => .panicked m
  | .ok true => .ok ⟨columns⟩
  | .ok false => .panicked "Schema validation failed"

/-- C9 is refuted by these runs of `Schema::new` from `src/schema.rs`: a
duplicate column name and a default-type mismatch both panic (exactly what
the file's own `#[should_panic]` tests expect) instead of returning a
discriminated failure value — no `Err`-like outcome exists in that code.
(Every other module of the repository calls `Schema::new(...).unwrap()`,
i.e. expects a `Result`-returning constructor; the panicking `schema.rs` in
the tree contradicts its callers and the spec.) -/
theorem claim_C9_schema_new_panics :
    SchemaRS.new [⟨"id", .Integer, 0, none⟩, ⟨"id", .String, 1, none⟩]
      = .panicked "Duplicate column name found: id" ∧
    SchemaRS.new [⟨"id", .Integer, 0, some [⟨.Default .String⟩]⟩]
      = .panicked ("Default constraint type mismatch for column \x27id\x27: "
          ++ "column type is Integer, default type is String") ∧
    SchemaRS.new [⟨"id", .Integer, 0, none⟩, ⟨"name", .String, 0, none⟩]
      = .panicked "Duplicate column index found: 1" ∧
    SchemaRS.new [⟨"id", .Integer, 0, none⟩, ⟨"name", .String, 1, none⟩]
      = .ok ⟨[⟨"id", .Integer, 0, none⟩, ⟨"name", .String, 1, none⟩]⟩ := by
  decide
